import Mathlib

/-!
# Verification of the html-to-image server core (src/server.js)

A shallow embedding of the render-request lifecycle manager of the
html-to-image HTTP server: content-addressed result caching (MD5 over
html plus JSON-serialized options), admission control by an active
request counter with a throttling middleware, the optimized image
generation path with lazy cache expiry, lazy browser initialization
with a single retry on a minimal flag set, and graceful shutdown.

Machine integers are modelled as Nat with explicit reduction mod 2^32
where the MD5 algorithm wraps; the JS counter `activeRequests` is an
Int (its non-negativity is one of the proved invariants).  Timestamps
(`Date.now()`) are Nat milliseconds, sampled once per call.  The
browser renderer is an oracle `render : String -> JObj -> Except String
(List Nat)`, a deterministic function from the request content to image
bytes or a thrown error, since the actual rasterization is outside the
program text.
-/

namespace HtmlToImage

/-! ## JSON values and JSON.stringify

The options object of a request is a list of fields in insertion
order, mirroring a JS object literal.  `jsonStringify` mirrors
`JSON.stringify` on such objects: fields are emitted in insertion
order.  Values cover the shapes the server actually receives (numbers,
strings without escape-needing characters, booleans); integral numbers
print as in JS. -/

inductive JVal where
  | num (n : Int)
  | str (s : String)
  | bool (b : Bool)
deriving DecidableEq

abbrev JObj := List (String × JVal)

def jvalString : JVal → String
  | .num n => toString n
  | .str s => "\"" ++ s ++ "\""
  | .bool b => if b then "true" else "false"

def jsonStringify (o : JObj) : String :=
  "\x7b" ++ String.intercalate ","
    (o.map (fun kv => "\"" ++ kv.1 ++ "\":" ++ jvalString kv.2)) ++ "\x7d"

/-! ## UTF-8 encoding

`crypto.createHash("md5").update(content)` hashes the UTF-8 bytes of
the content string. -/

def utf8Char (c : Char) : List Nat :=
  let n := c.toNat
  if n < 128 then [n]
  else if n < 2048 then [192 + n / 64, 128 + n % 64]
  else if n < 65536 then [224 + n / 4096, 128 + n / 64 % 64, 128 + n % 64]
  else [240 + n / 262144, 128 + n / 4096 % 64, 128 + n / 64 % 64, 128 + n % 64]

def utf8Bytes (s : String) : List Nat :=
  s.data.foldr (fun c acc => utf8Char c ++ acc) []

/-! ## MD5

The MD5 digest, as used by `generateCacheKey`.  Words are Nat reduced
mod 2^32. -/

def M32 : Nat := 4294967296

def rotl32 (x s : Nat) : Nat := (x * 2 ^ s + x / 2 ^ (32 - s)) % M32

def not32 (x : Nat) : Nat := 4294967295 - x

def md5S : List Nat :=
  [7, 12, 17, 22, 7, 12, 17, 22, 7, 12, 17, 22, 7, 12, 17, 22,
   5, 9, 14, 20, 5, 9, 14, 20, 5, 9, 14, 20, 5, 9, 14, 20,
   4, 11, 16, 23, 4, 11, 16, 23, 4, 11, 16, 23, 4, 11, 16, 23,
   6, 10, 15, 21, 6, 10, 15, 21, 6, 10, 15, 21, 6, 10, 15, 21]

def md5K : List Nat :=
  [0xd76aa478, 0xe8c7b756, 0x242070db, 0xc1bdceee,
   0xf57c0faf, 0x4787c62a, 0xa8304613, 0xfd469501,
   0x698098d8, 0x8b44f7af, 0xffff5bb1, 0x895cd7be,
   0x6b901122, 0xfd987193, 0xa679438e, 0x49b40821,
   0xf61e2562, 0xc040b340, 0x265e5a51, 0xe9b6c7aa,
   0xd62f105d, 0x02441453, 0xd8a1e681, 0xe7d3fbc8,
   0x21e1cde6, 0xc33707d6, 0xf4d50d87, 0x455a14ed,
   0xa9e3e905, 0xfcefa3f8, 0x676f02d9, 0x8d2a4c8a,
   0xfffa3942, 0x8771f681, 0x6d9d6122, 0xfde5380c,
   0xa4beea44, 0x4bdecfa9, 0xf6bb4b60, 0xbebfbc70,
   0x289b7ec6, 0xeaa127fa, 0xd4ef3085, 0x04881d05,
   0xd9d4d039, 0xe6db99e5, 0x1fa27cf8, 0xc4ac5665,
   0xf4292244, 0x432aff97, 0xab9423a7, 0xfc93a039,
   0x655b59c3, 0x8f0ccc92, 0xffeff47d, 0x85845dd1,
   0x6fa87e4f, 0xfe2ce6e0, 0xa3014314, 0x4e0811a1,
   0xf7537e82, 0xbd3af235, 0x2ad7d2bb, 0xeb86d391]

/-- MD5 padding: append bit 1, zero bytes to 56 mod 64, then the 8-byte
little-endian bit length. -/
def md5Pad (msg : List Nat) : List Nat :=
  let bitLen := msg.length * 8
  let withOne := msg ++ [128]
  let zeros := (64 - (withOne.length + 8) % 64) % 64
  let lenBytes := (List.range 8).map (fun i => bitLen / 2 ^ (8 * i) % 256)
  withOne ++ List.replicate zeros 0 ++ lenBytes

/-- The 16 little-endian 32-bit words of one 64-byte block. -/
def md5Words (block : List Nat) : List Nat :=
  (List.range 16).map (fun i =>
    block.getD (4 * i) 0 + block.getD (4 * i + 1) 0 * 256 +
    block.getD (4 * i + 2) 0 * 65536 + block.getD (4 * i + 3) 0 * 16777216)

def md5Round (M : List Nat) (st : Nat × Nat × Nat × Nat) (i : Nat) :
    Nat × Nat × Nat × Nat :=
  let (a, b, c, d) := st
  let fg : Nat × Nat :=
    if i < 16 then ((b &&& c) ||| (not32 b &&& d), i)
    else if i < 32 then ((d &&& b) ||| (not32 d &&& c), (5 * i + 1) % 16)
    else if i < 48 then (b ^^^ c ^^^ d, (3 * i + 5) % 16)
    else (c ^^^ (b ||| not32 d), (7 * i) % 16)
  let f := (fg.1 + a + md5K.getD i 0 + M.getD fg.2 0) % M32
  (d, (b + rotl32 f (md5S.getD i 0)) % M32, b, c)

def md5Block (st : Nat × Nat × Nat × Nat) (block : List Nat) :
    Nat × Nat × Nat × Nat :=
  let M := md5Words block
  let (a, b, c, d) := (List.range 64).foldl (md5Round M) st
  let (a0, b0, c0, d0) := st
  ((a0 + a) % M32, (b0 + b) % M32, (c0 + c) % M32, (d0 + d) % M32)

def chunks64Go : Nat → List Nat → List (List Nat)
  | 0, _ => []
  | _, [] => []
  | fuel + 1, l => l.take 64 :: chunks64Go fuel (l.drop 64)

def chunks64 (l : List Nat) : List (List Nat) := chunks64Go l.length l

def hexDigit (n : Nat) : Char :=
  "0123456789abcdef".data.getD n '0'

/-- Hex rendering of one state word, least significant byte first, as in
the MD5 digest. -/
def wordHex (w : Nat) : List Char :=
  ((List.range 4).map (fun i => w / 2 ^ (8 * i) % 256)).foldr
    (fun byte acc => hexDigit (byte / 16) :: hexDigit (byte % 16) :: acc) []

def md5Hex (msg : List Nat) : String :=
  let blocks := chunks64 (md5Pad msg)
  let (a, b, c, d) := blocks.foldl md5Block
    (0x67452301, 0xefcdab89, 0x98badcfe, 0x10325476)
  String.mk (wordHex a ++ wordHex b ++ wordHex c ++ wordHex d)

/-! ## Cache keys and the in-memory image cache (src/server.js 129-144) -/

/-- `generateCacheKey(html, options)`: md5 hex digest of
`html + JSON.stringify(options)`. -/
def generateCacheKey (html : String) (options : JObj) : String :=
  let content := html ++ jsonStringify options
  md5Hex (utf8Bytes content)

structure CacheEntry where
  buffer : List Nat
  timestamp : Nat
deriving DecidableEq

/-- The `imageCache` Map, as an insertion-ordered association list with
unique keys. -/
abbrev Cache := List (String × CacheEntry)

def mapGet : Cache → String → Option CacheEntry
  | [], _ => none
  | (k0, v0) :: rest, k => if k0 = k then some v0 else mapGet rest k

def mapHas (m : Cache) (k : String) : Bool := (mapGet m k).isSome

def mapSet : Cache → String → CacheEntry → Cache
  | [], k, v => [(k, v)]
  | (k0, v0) :: rest, k, v =>
    if k0 = k then (k, v) :: rest else (k0, v0) :: mapSet rest k v

def mapDelete : Cache → String → Cache
  | [], _ => []
  | (k0, v0) :: rest, k => if k0 = k then rest else (k0, v0) :: mapDelete rest k

/-- `cleanupCache()`: the periodic sweep removes entries with
`now - timestamp > CACHE_TTL`. -/
def cleanupCache (CACHE_TTL now : Nat) (m : Cache) : Cache :=
  m.filter (fun kv => !(now - kv.2.timestamp > CACHE_TTL))

/-! ## Optimized image generation (src/server.js 147-209) -/

instance {ε α : Type} [DecidableEq ε] [DecidableEq α] :
    DecidableEq (Except ε α) := fun a b =>
  match a, b with
  | .ok x, .ok y =>
    if h : x = y then .isTrue (by rw [h]) else .isFalse (by simp [h])
  | .error x, .error y =>
    if h : x = y then .isTrue (by rw [h]) else .isFalse (by simp [h])
  | .ok _, .error _ => .isFalse (by simp)
  | .error _, .ok _ => .isFalse (by simp)

/-- Outcome of one `generateImageOptimized` call: the returned buffer or
thrown error, the cache afterwards, and whether the renderer engine was
invoked (browser page opened and screenshot attempted). -/
structure GenOut where
  result : Except String (List Nat)
  cache : Cache
  rendered : Bool
deriving DecidableEq

/-- The fall-through path of `generateImageOptimized` below the cache
check (src/server.js 162-208): render via the browser and on success
store the buffer under the key with the current timestamp.  A thrown
render error propagates and caches nothing (the page is still closed in
the `finally`, which has no observable state here). -/
def renderAndCache (render : String → JObj → Except String (List Nat))
    (now : Nat) (html : String) (options : JObj) (cache : Cache)
    (cacheKey : String) : GenOut :=
  match render html options with
  | .ok imageBuffer =>
    { result := .ok imageBuffer,
      cache := mapSet cache cacheKey ⟨imageBuffer, now⟩,
      rendered := true }
  | .error e => { result := .error e, cache := cache, rendered := true }

/-- `generateImageOptimized(html, options)`: check the cache first; a
present entry with `now - timestamp < CACHE_TTL` is returned as a hit;
a present stale entry is deleted and the call falls through to a fresh
render, as does an absent key. -/
def generateImageOptimized (CACHE_TTL : Nat)
    (render : String → JObj → Except String (List Nat))
    (now : Nat) (html : String) (options : JObj) (cache : Cache) : GenOut :=
  let cacheKey := generateCacheKey html options
  match mapGet cache cacheKey with
  | some cached =>
    if now - cached.timestamp < CACHE_TTL then
      { result := .ok cached.buffer, cache := cache, rendered := false }
    else
      renderAndCache render now html options (mapDelete cache cacheKey) cacheKey
  | none => renderAndCache render now html options cache cacheKey

/-! ## Server state, throttling middleware and request handlers
(src/server.js 14-15, 40-49, 247-326, 328-426) -/

structure ServerState where
  cache : Cache
  activeRequests : Int
deriving DecidableEq

/-- The observable pieces of an HTTP response: status code, the
`X-Cache-Status` header when set, and the image bytes when sent. -/
structure Response where
  status : Nat
  xCacheStatus : Option String
  buffer : Option (List Nat)
deriving DecidableEq

/-- `req.body` of POST /html-to-image: `html` is absent or a string
(an empty string is falsy, like an absent one); `options` defaults to
the empty object. -/
structure RequestBody where
  html : Option String
  options : Option JObj
deriving DecidableEq

/-- The request throttling middleware (src/server.js 40-49): reject
with 429 when `activeRequests >= MAX_CONCURRENT && req.path ===
"/html-to-image"`. -/
def throttleRejects (MAX_CONCURRENT : Nat) (activeRequests : Int)
    (path : String) : Bool :=
  decide ((MAX_CONCURRENT : Int) ≤ activeRequests) && path == "/html-to-image"

/-- Everything observable about one handled request: the response, the
state afterwards, the counter value held while the request body ran
(between the increment on entry and the decrement in `finally`), and
whether the renderer engine was invoked. -/
structure HandleOut where
  response : Response
  state : ServerState
  activeDuring : Int
  rendered : Bool
deriving DecidableEq

/-- The `try` block of the POST /html-to-image handler (src/server.js
251-322): validation (400 for falsy html, 413 above the 10 MB ceiling),
then `generateImageOptimized`, the `X-Cache-Status` header computed by
re-checking `imageCache.has` on the post-call cache, and 500 on a
thrown render error.  Returns the response, the state with the updated
cache, and whether a render was attempted. -/
def htmlToImageTry (CACHE_TTL : Nat)
    (render : String → JObj → Except String (List Nat)) (now : Nat)
    (body : RequestBody) (st : ServerState) : Response × ServerState × Bool :=
  let options := body.options.getD []
  match body.html with
  | none => (⟨400, none, none⟩, st, false)
  | some html =>
    if html = "" then (⟨400, none, none⟩, st, false)
    else if html.length > 10 * 1024 * 1024 then (⟨413, none, none⟩, st, false)
    else
      let g := generateImageOptimized CACHE_TTL render now html options st.cache
      match g.result with
      | .ok imageBuffer =>
        let cacheStatus :=
          if mapHas g.cache (generateCacheKey html options) then "HIT" else "MISS"
        (⟨200, some cacheStatus, some imageBuffer⟩,
         { st with cache := g.cache }, g.rendered)
      | .error _ => (⟨500, none, none⟩, { st with cache := g.cache }, g.rendered)

/-- POST /html-to-image (src/server.js 247-326): `activeRequests++` on
entry, the `try` block, and in `finally`
`activeRequests = Math.max(0, activeRequests - 1)`. -/
def handleHtmlToImage (CACHE_TTL : Nat)
    (render : String → JObj → Except String (List Nat)) (now : Nat)
    (body : RequestBody) (st : ServerState) : HandleOut :=
  let st1 : ServerState := { st with activeRequests := st.activeRequests + 1 }
  let (resp, st2, rendered) := htmlToImageTry CACHE_TTL render now body st1
  { response := resp,
    state := { st2 with activeRequests := max 0 (st2.activeRequests - 1) },
    activeDuring := st1.activeRequests,
    rendered := rendered }

/-- GET /test-image (src/server.js 328-426): `activeRequests++` on
entry, render a built-in timestamp-dependent page (passed here as
`testHtml`) with empty options, 500 on a thrown error, and the same
floored decrement in `finally`.  No `X-Cache-Status` header is set. -/
def handleTestImage (CACHE_TTL : Nat)
    (render : String → JObj → Except String (List Nat)) (now : Nat)
    (testHtml : String) (st : ServerState) : HandleOut :=
  let st1 : ServerState := { st with activeRequests := st.activeRequests + 1 }
  let g := generateImageOptimized CACHE_TTL render now testHtml [] st1.cache
  let (resp, st2) :=
    match g.result with
    | .ok imageBuffer =>
      ((⟨200, none, some imageBuffer⟩ : Response), { st1 with cache := g.cache })
    | .error _ => ((⟨500, none, none⟩ : Response), { st1 with cache := g.cache })
  { response := resp,
    state := { st2 with activeRequests := max 0 (st2.activeRequests - 1) },
    activeDuring := st1.activeRequests,
    rendered := g.rendered }

/-- A request reaching the app, with the clock value at which it runs. -/
inductive Req where
  | htmlToImage (now : Nat) (body : RequestBody)
  | testImage (now : Nat) (testHtml : String)

def Req.path : Req → String
  | .htmlToImage .. => "/html-to-image"
  | .testImage .. => "/test-image"

/-- One request through the middleware chain and the matching route:
the throttling middleware runs first on every request and sends 429
without touching any state when it rejects; otherwise the route handler
runs. -/
def handleRequest (MAX_CONCURRENT CACHE_TTL : Nat)
    (render : String → JObj → Except String (List Nat))
    (req : Req) (st : ServerState) : HandleOut :=
  if throttleRejects MAX_CONCURRENT st.activeRequests req.path then
    { response := ⟨429, none, none⟩, state := st,
      activeDuring := st.activeRequests, rendered := false }
  else
    match req with
    | .htmlToImage now body => handleHtmlToImage CACHE_TTL render now body st
    | .testImage now testHtml => handleTestImage CACHE_TTL render now testHtml st

/-- A sequence of requests, each run to completion in turn. -/
def runRequests (MAX_CONCURRENT CACHE_TTL : Nat)
    (render : String → JObj → Except String (List Nat))
    (reqs : List Req) (st : ServerState) : ServerState :=
  reqs.foldl (fun s r => (handleRequest MAX_CONCURRENT CACHE_TTL render r s).state) st

/-! ## Browser initialization (src/server.js 63-126) -/

/-- A browser handle; only its identity matters to the embedding. -/
abbrev Browser := Nat

structure LaunchOptions where
  headless : String
  args : List String
  executablePath : Option String
deriving DecidableEq

/-- The full flag set of the first launch attempt. -/
def fullLaunchArgs : List String :=
  ["--no-sandbox", "--disable-setuid-sandbox", "--disable-dev-shm-usage",
   "--disable-gpu", "--no-first-run", "--no-zygote", "--single-process",
   "--disable-extensions", "--disable-default-apps", "--disable-web-security",
   "--disable-features=VizDisplayCompositor",
   "--disable-background-timer-throttling", "--disable-renderer-backgrounding",
   "--disable-backgrounding-occluded-windows",
   "--disable-ipc-flooding-protection",
   "--enable-features=NetworkService,NetworkServiceInProcess",
   "--force-color-profile=srgb", "--metrics-recording-only",
   "--use-mock-keychain"]

/-- The reduced flag set of the retry (src/server.js 111-117). -/
def minimalLaunchArgs : List String :=
  ["--no-sandbox", "--disable-setuid-sandbox", "--disable-dev-shm-usage",
   "--disable-gpu", "--single-process"]

/-- A JS string is truthy when nonempty. -/
def strTruthy : Option String → Bool
  | none => false
  | some s => !(s = "")

/-- The launch options of the first attempt: full flags, and the
`PUPPETEER_EXECUTABLE_PATH` override when the variable is truthy and
not the skipped chromium path (src/server.js 65-101). -/
def mkLaunchOptions (envExecPath : Option String) : LaunchOptions :=
  let base : LaunchOptions :=
    { headless := "new", args := fullLaunchArgs, executablePath := none }
  match envExecPath with
  | some p =>
    if strTruthy (some p) && !(p = "/usr/bin/chromium-browser") then
      { base with executablePath := some p }
    else base
  | none => base

/-- The options of the retry: same record with `args` replaced by the
minimal set and `executablePath` deleted (src/server.js 111-119). -/
def retryLaunchOptions (envExecPath : Option String) : LaunchOptions :=
  { mkLaunchOptions envExecPath with
      args := minimalLaunchArgs, executablePath := none }

/-- `initBrowser()` (src/server.js 63-126), with `puppeteer.launch`
as an oracle from launch options to a handle or a thrown error.
Returns what the call returns or throws, the stored `browser` variable
afterwards, and the list of launch attempts made, in order. -/
def initBrowser (launch : LaunchOptions → Except String Browser)
    (envExecPath : Option String) (browser : Option Browser) :
    Except String Browser × Option Browser × List LaunchOptions :=
  match browser with
  | some b => (.ok b, some b, [])
  | none =>
    let launchOptions := mkLaunchOptions envExecPath
    match launch launchOptions with
    | .ok b => (.ok b, some b, [launchOptions])
    | .error _ =>
      let retryOptions := retryLaunchOptions envExecPath
      match launch retryOptions with
      | .ok b => (.ok b, some b, [launchOptions, retryOptions])
      | .error e => (.error e, none, [launchOptions, retryOptions])

/-! ## Graceful shutdown (src/server.js 462-488) -/

inductive ShutdownAction where
  | httpServerClose
  | cacheClear
  | browserClose
  | exitProcess (code : Nat)
deriving DecidableEq

/-- The SIGTERM and SIGINT handlers (identical bodies): `server.close`
stops accepting new requests, and its callback clears the image cache,
closes the browser when one exists, and calls `process.exit(0)`.
Returns the action trace and the cache afterwards. -/
def gracefulShutdown (browser : Option Browser) (_cache : Cache) :
    List ShutdownAction × Cache :=
  let tail :=
    match browser with
    | some _ => [ShutdownAction.browserClose, ShutdownAction.exitProcess 0]
    | none => [ShutdownAction.exitProcess 0]
  (ShutdownAction.httpServerClose :: ShutdownAction.cacheClear :: tail, [])

/-! ## Basic lemmas about the cache map -/

/-- A JS Map never holds two entries with the same key. -/
abbrev cacheWF (m : Cache) : Prop := (m.map Prod.fst).Nodup

theorem mapGet_mapSet_self (m : Cache) (k : String) (v : CacheEntry) :
    mapGet (mapSet m k v) k = some v := by
  induction m with
  | nil => simp [mapSet, mapGet]
  | cons hd tl ih =>
    obtain ⟨k0, v0⟩ := hd
    by_cases h : k0 = k
    · simp [mapSet, mapGet, h]
    · simp [mapSet, mapGet, h, ih]

theorem mapGet_mapDelete_self (m : Cache) (k : String) (hwf : cacheWF m) :
    mapGet (mapDelete m k) k = none := by
  induction m with
  | nil => simp [mapDelete, mapGet]
  | cons hd tl ih =>
    obtain ⟨k0, v0⟩ := hd
    simp only [cacheWF, List.map_cons, List.nodup_cons] at hwf
    by_cases h : k0 = k
    · subst h
      simp only [mapDelete, if_pos rfl]
      clear ih
      induction tl with
      | nil => simp [mapGet]
      | cons hd2 tl2 ih2 =>
        obtain ⟨k2, v2⟩ := hd2
        simp only [List.map_cons, List.mem_cons] at hwf
        have hk2 : k2 ≠ k0 := fun he => hwf.1 (Or.inl he.symm)
        simp only [mapGet, if_neg hk2]
        exact ih2 ⟨fun hm => hwf.1 (Or.inr hm), (List.nodup_cons.mp hwf.2).2⟩
    · simp only [mapDelete, if_neg h, mapGet, if_neg h]
      exact ih hwf.2

/-! ## Lemmas about the optimized generation path -/

/-- After a call of `generateImageOptimized` that returns normally, the
cache maps the key of the call to an entry holding exactly the returned
buffer. -/
theorem gen_ok_cached (CACHE_TTL : Nat)
    (render : String → JObj → Except String (List Nat))
    (now : Nat) (html : String) (options : JObj) (cache : Cache)
    (buf : List Nat)
    (h : (generateImageOptimized CACHE_TTL render now html options cache).result
          = .ok buf) :
    ∃ ts, mapGet
        (generateImageOptimized CACHE_TTL render now html options cache).cache
        (generateCacheKey html options) = some ⟨buf, ts⟩ := by
  unfold generateImageOptimized at *
  set key := generateCacheKey html options with hkey
  cases hget : mapGet cache key with
  | some cached =>
    simp only [hget] at h ⊢
    by_cases hfresh : now - cached.timestamp < CACHE_TTL
    · simp only [if_pos hfresh] at h ⊢
      simp only [Except.ok.injEq] at h
      exact ⟨cached.timestamp, by simpa [← h] using hget⟩
    · simp only [if_neg hfresh] at h ⊢
      unfold renderAndCache at h ⊢
      cases hr : render html options with
      | ok b =>
        simp only [hr] at h ⊢
        simp only [Except.ok.injEq] at h
        exact ⟨now, by simp [← h, mapGet_mapSet_self]⟩
      | error e => simp [hr] at h
  | none =>
    simp only [hget] at h ⊢
    unfold renderAndCache at h ⊢
    cases hr : render html options with
    | ok b =>
      simp only [hr] at h ⊢
      simp only [Except.ok.injEq] at h
      exact ⟨now, by simp [← h, mapGet_mapSet_self]⟩
    | error e => simp [hr] at h

/-- A present entry whose age is strictly below the TTL is returned as
a cache hit: the cached buffer comes back, the cache is untouched and
the renderer is not invoked. -/
theorem gen_hit (CACHE_TTL : Nat)
    (render : String → JObj → Except String (List Nat))
    (now : Nat) (html : String) (options : JObj) (cache : Cache)
    (e : CacheEntry)
    (hget : mapGet cache (generateCacheKey html options) = some e)
    (hfresh : now - e.timestamp < CACHE_TTL) :
    generateImageOptimized CACHE_TTL render now html options cache
      = ⟨.ok e.buffer, cache, false⟩ := by
  unfold generateImageOptimized
  simp only [hget, if_pos hfresh]

/-! ## Claim C2: order-stability of the cache key serialization -/

/-- Claim C2, counterexample: two options objects equal as maps but
with the two fields in swapped insertion order hash to different cache
keys — `JSON.stringify` serializes fields in insertion order, so the
hashed content differs and so do the MD5 digests. -/
theorem C2_counterexample :
    (generateCacheKey "x" [("width", JVal.num 100), ("height", JVal.num 200)]
      == generateCacheKey "x" [("height", JVal.num 200), ("width", JVal.num 100)])
      = false := by decide

/-- Claim C2 (amended): the serialization of options used in the key is
the insertion-order traversal of the object, so the computed key is
guaranteed identical only for options objects whose serialized forms
(field order included) coincide; for those, the key is identical for
the same html. -/
theorem C2_amended (html : String) (o1 o2 : JObj)
    (h : jsonStringify o1 = jsonStringify o2) :
    generateCacheKey html o1 = generateCacheKey html o2 := by
  simp [generateCacheKey, h]

/-- Witness for C2_amended at concrete options objects. -/
theorem C2_amended_witness :
    generateCacheKey "x" [("width", JVal.num 100)]
      = generateCacheKey "x" [("width", JVal.num 100)] :=
  C2_amended "x" [("width", JVal.num 100)] [("width", JVal.num 100)] rfl

/-! ## Claim C5: lazy cache expiry on read -/

/-- Claim C5, counterexample: with TTL 100, an entry created at time 0
and looked up at time 100 has age exactly equal to the TTL, yet the
lookup is a miss — the renderer runs and its fresh buffer [7], not the
cached [5], is returned — because the hit condition in the code is the
strict `now - timestamp < CACHE_TTL`. -/
theorem C5_counterexample :
    ((generateImageOptimized 100 (fun _ _ => Except.ok [7]) 100 "b" []
        [(generateCacheKey "b" [], ⟨[5], 0⟩)]).rendered = true) ∧
    ((generateImageOptimized 100 (fun _ _ => Except.ok [7]) 100 "b" []
        [(generateCacheKey "b" [], ⟨[5], 0⟩)]).result = Except.ok [7]) ∧
    100 - (0 : Nat) = 100 := by decide

/-- Claim C5 (amended): a present entry is served as a hit exactly when
its age at lookup time is strictly below the TTL; a hit returns the
cached buffer, touches no state and skips the renderer.  When the age
is at least the TTL — including exactly equal — the lookup is a miss:
the stale entry is deleted during that lookup, the renderer runs, and
afterwards the key maps to the freshly rendered buffer (or to nothing,
when the render threw). -/
theorem C5_amended (CACHE_TTL : Nat)
    (render : String → JObj → Except String (List Nat))
    (now : Nat) (html : String) (options : JObj)
    (cache : Cache) (e : CacheEntry)
    (hwf : cacheWF cache)
    (hget : mapGet cache (generateCacheKey html options) = some e) :
    (((generateImageOptimized CACHE_TTL render now html options cache).rendered
        = false) ↔ now - e.timestamp < CACHE_TTL) ∧
    (now - e.timestamp < CACHE_TTL →
      generateImageOptimized CACHE_TTL render now html options cache
        = ⟨.ok e.buffer, cache, false⟩) ∧
    (CACHE_TTL ≤ now - e.timestamp → ∀ b, render html options = .ok b →
      mapGet
        (generateImageOptimized CACHE_TTL render now html options cache).cache
        (generateCacheKey html options) = some ⟨b, now⟩) ∧
    (CACHE_TTL ≤ now - e.timestamp → ∀ err, render html options = .error err →
      mapGet
        (generateImageOptimized CACHE_TTL render now html options cache).cache
        (generateCacheKey html options) = none) := by
  unfold generateImageOptimized
  simp only [hget]
  by_cases hfresh : now - e.timestamp < CACHE_TTL
  · simp only [if_pos hfresh]
    refine ⟨by simp [hfresh], fun _ => by simp,
      fun hstale => absurd hfresh (by omega),
      fun hstale => absurd hfresh (by omega)⟩
  · simp only [if_neg hfresh]
    refine ⟨?_, fun hf => absurd hf hfresh, fun _ b hb => ?_, fun _ err he => ?_⟩
    · constructor
      · intro hr
        exfalso
        cases h : render html options <;> simp [renderAndCache, h] at hr
      · intro hf
        exact absurd hf hfresh
    · simp [renderAndCache, hb, mapGet_mapSet_self]
    · simp [renderAndCache, he, mapGet_mapDelete_self cache _ hwf]

/-- Witness for C5_amended: a concrete fresh lookup (age 10 with TTL
100) is a hit returning the cached buffer without rendering. -/
theorem C5_amended_witness :
    generateImageOptimized 100 (fun _ _ => Except.ok [7]) 10 "b" []
        [(generateCacheKey "b" [], ⟨[5], 0⟩)]
      = ⟨.ok [5], [(generateCacheKey "b" [], ⟨[5], 0⟩)], false⟩ :=
  (C5_amended 100 (fun _ _ => Except.ok [7]) 10 "b" []
    [(generateCacheKey "b" [], ⟨[5], 0⟩)] ⟨[5], 0⟩
    (by decide) (by decide)).2.1 (by decide)

/-! ## Claim C7: rendering twice yields a hit with identical bytes -/

/-- Claim C7: if a first `generateImageOptimized` call returns buffer
`buf1` and the entry it leaves under the key is still unexpired when a
second call with the same html and options runs (no intervening cache
expiry; no cache clear happens between the two calls), then the second
call is a cache hit: it does not invoke the renderer and returns
exactly the bytes of the first call. -/
theorem C7_theorem (CACHE_TTL : Nat)
    (render : String → JObj → Except String (List Nat))
    (t1 t2 : Nat) (html : String) (options : JObj) (cache : Cache)
    (buf1 : List Nat) (e : CacheEntry)
    (h1 : (generateImageOptimized CACHE_TTL render t1 html options cache).result
        = .ok buf1)
    (h2 : mapGet
        (generateImageOptimized CACHE_TTL render t1 html options cache).cache
        (generateCacheKey html options) = some e)
    (hfresh : t2 - e.timestamp < CACHE_TTL) :
    generateImageOptimized CACHE_TTL render t2 html options
        (generateImageOptimized CACHE_TTL render t1 html options cache).cache
      = ⟨.ok buf1,
         (generateImageOptimized CACHE_TTL render t1 html options cache).cache,
         false⟩ := by
  obtain ⟨ts, hts⟩ := gen_ok_cached CACHE_TTL render t1 html options cache buf1 h1
  rw [hts] at h2
  have hbuf : e.buffer = buf1 := by
    cases h2
    rfl
  rw [gen_hit CACHE_TTL render t2 html options _ e (by rw [hts, ← h2]) hfresh, hbuf]

/-- Witness for C7_theorem: a concrete render at time 0 followed by the
same request at time 50 with TTL 100 returns the identical buffer from
cache. -/
theorem C7_theorem_witness :
    generateImageOptimized 100 (fun _ _ => Except.ok [1, 2]) 50 "a" []
        (generateImageOptimized 100 (fun _ _ => Except.ok [1, 2]) 0 "a" [] []).cache
      = ⟨.ok [1, 2],
         (generateImageOptimized 100 (fun _ _ => Except.ok [1, 2]) 0 "a" [] []).cache,
         false⟩ :=
  C7_theorem 100 (fun _ _ => Except.ok [1, 2]) 0 50 "a" [] [] [1, 2]
    ⟨[1, 2], 0⟩ (by decide) (by decide) (by decide)

/-! ## Claim C1: cache hits versus the admission gate -/

/-- Claim C1, counterexample: a request whose cache key is present and
unexpired (age 7 ms against a 300000 ms TTL) arriving while
`activeRequests` equals the ceiling 5 is rejected by the throttling
middleware with 429 and never receives the cached bytes: the middleware
runs before the cache is consulted, so a cache-hit request is not
exempt from the capacity check. -/
theorem C1_counterexample :
    ((handleRequest 5 300000 (fun _ _ => Except.ok [9])
        (.htmlToImage 7 ⟨some "<h1>x</h1>", some []⟩)
        ⟨[(generateCacheKey "<h1>x</h1>" [], ⟨[1, 2, 3], 0⟩)], 5⟩).response
      = ⟨429, none, none⟩) ∧
    (mapGet [(generateCacheKey "<h1>x</h1>" [], ⟨[1, 2, 3], 0⟩)]
        (generateCacheKey "<h1>x</h1>" []) = some ⟨[1, 2, 3], 0⟩) ∧
    7 - (0 : Nat) < 300000 := by decide

/-- Claim C1 (amended): the throttling middleware is consulted before
the cache for every /html-to-image request and rejects with 429
whenever the counter is at or above the ceiling, cache hit or not; when
the counter is below the ceiling, a request whose key is present and
unexpired is served the cached bytes with no renderer invocation, the
cache and the counter are left as they were, and only the transient
increment/decrement pair touches the counter. -/
theorem C1_amended (MAX_CONCURRENT CACHE_TTL : Nat)
    (render : String → JObj → Except String (List Nat)) (now : Nat)
    (html : String) (options : JObj) (st : ServerState) (e : CacheEntry)
    (hcnt : st.activeRequests < (MAX_CONCURRENT : Int))
    (hpos : 0 ≤ st.activeRequests)
    (hne : html ≠ "")
    (hlen : ¬ html.length > 10 * 1024 * 1024)
    (hget : mapGet st.cache (generateCacheKey html options) = some e)
    (hfresh : now - e.timestamp < CACHE_TTL) :
    handleRequest MAX_CONCURRENT CACHE_TTL render
        (.htmlToImage now ⟨some html, some options⟩) st
      = { response := ⟨200, some "HIT", some e.buffer⟩,
          state := st,
          activeDuring := st.activeRequests + 1,
          rendered := false } := by
  have hthr : throttleRejects MAX_CONCURRENT st.activeRequests "/html-to-image"
      = false := by
    simp only [throttleRejects, Bool.and_eq_false_iff, decide_eq_false_iff_not,
      not_le]
    exact Or.inl hcnt
  have hgen := gen_hit CACHE_TTL render now html options st.cache e hget hfresh
  unfold handleRequest
  simp only [Req.path, hthr, Bool.false_eq_true, if_false]
  unfold handleHtmlToImage htmlToImageTry
  simp only [Option.getD_some, if_neg hne, if_neg hlen, hgen, mapHas, hget,
    Option.isSome_some, if_pos, if_true]
  have hmax : max 0 (st.activeRequests + 1 - 1) = st.activeRequests := by omega
  cases st
  simp_all

/-- Witness for C1_amended: below the ceiling, a concrete fresh cache
hit is served without render and without net counter change. -/
theorem C1_amended_witness :
    handleRequest 5 300000 (fun _ _ => Except.ok [9])
        (.htmlToImage 10 ⟨some "a", some []⟩)
        ⟨[(generateCacheKey "a" [], ⟨[1], 0⟩)], 0⟩
      = { response := ⟨200, some "HIT", some [1]⟩,
          state := ⟨[(generateCacheKey "a" [], ⟨[1], 0⟩)], 0⟩,
          activeDuring := 1,
          rendered := false } :=
  C1_amended 5 300000 (fun _ _ => Except.ok [9]) 10 "a" []
    ⟨[(generateCacheKey "a" [], ⟨[1], 0⟩)], 0⟩ ⟨[1], 0⟩
    (by decide) (by decide) (by decide) (by decide) (by decide) (by decide)

/-! ## Claim C3: the 10 MB size ceiling -/

/-- An html payload of 10485761 characters, one above the
10 * 1024 * 1024 ceiling. -/
def bigHtml : String := String.mk (List.replicate 10485761 'a')

theorem bigHtml_length : bigHtml.length = 10485761 := by
  show (List.replicate 10485761 'a').length = 10485761
  rw [List.length_replicate]

theorem bigHtml_ne_empty : bigHtml ≠ "" := by
  intro h
  have hl := bigHtml_length
  rw [h] at hl
  exact absurd hl (by decide)

/-- What the handler does to an oversized request that passed the
throttling middleware: 413, no render, cache untouched — and the
counter, incremented on entry before the size check ran, is restored by
the decrement in `finally`. -/
theorem handleRequest_oversized (MAX_CONCURRENT CACHE_TTL : Nat)
    (render : String → JObj → Except String (List Nat)) (now : Nat)
    (html : String) (options : Option JObj) (st : ServerState)
    (hcnt : st.activeRequests < (MAX_CONCURRENT : Int))
    (hpos : 0 ≤ st.activeRequests)
    (hne : html ≠ "")
    (hlen : html.length > 10 * 1024 * 1024) :
    handleRequest MAX_CONCURRENT CACHE_TTL render
        (.htmlToImage now ⟨some html, options⟩) st
      = { response := ⟨413, none, none⟩,
          state := st,
          activeDuring := st.activeRequests + 1,
          rendered := false } := by
  have hthr : throttleRejects MAX_CONCURRENT st.activeRequests "/html-to-image"
      = false := by
    simp only [throttleRejects, Bool.and_eq_false_iff, decide_eq_false_iff_not,
      not_le]
    exact Or.inl hcnt
  unfold handleRequest
  simp only [Req.path, hthr, Bool.false_eq_true, if_false]
  unfold handleHtmlToImage htmlToImageTry
  simp only [if_neg hne, if_pos hlen]
  have hmax : max 0 (st.activeRequests + 1 - 1) = st.activeRequests := by omega
  cases st
  simp_all

/-- Claim C3, counterexample: an oversized request is answered 413 and
no render is attempted, but the ActiveRequestCounter is incremented on
handler entry before the size validation runs: while the oversized
request is being processed the counter reads 1, not 0 — the increment
is not skipped for requests destined to be rejected. -/
theorem C3_counterexample :
    ((handleRequest 5 300000 (fun _ _ => Except.ok [9])
        (.htmlToImage 0 ⟨some bigHtml, none⟩) ⟨[], 0⟩).activeDuring = 1) ∧
    ((handleRequest 5 300000 (fun _ _ => Except.ok [9])
        (.htmlToImage 0 ⟨some bigHtml, none⟩) ⟨[], 0⟩).response.status = 413) := by
  have h := handleRequest_oversized 5 300000 (fun _ _ => Except.ok [9]) 0
    bigHtml none ⟨[], 0⟩ (by decide) (by decide) bigHtml_ne_empty
    (by rw [bigHtml_length]; norm_num)
  rw [h]
  exact ⟨rfl, rfl⟩

/-- Claim C3 (amended): a request whose html exceeds the 10 MB ceiling
and which passes the throttling middleware is rejected with 413, no
render is attempted and the cache is untouched; however the
ActiveRequestCounter is incremented on handler entry before the size
check (the validation does not precede the counter update) and
decremented again on exit, so the counter is restored but not left
untouched, and the throttling middleware — the admission gate — runs
before the size check rather than after it. -/
theorem C3_amended (MAX_CONCURRENT CACHE_TTL : Nat)
    (render : String → JObj → Except String (List Nat)) (now : Nat)
    (html : String) (options : Option JObj) (st : ServerState)
    (hcnt : st.activeRequests < (MAX_CONCURRENT : Int))
    (hpos : 0 ≤ st.activeRequests)
    (hne : html ≠ "")
    (hlen : html.length > 10 * 1024 * 1024) :
    handleRequest MAX_CONCURRENT CACHE_TTL render
        (.htmlToImage now ⟨some html, options⟩) st
      = { response := ⟨413, none, none⟩,
          state := st,
          activeDuring := st.activeRequests + 1,
          rendered := false } :=
  handleRequest_oversized MAX_CONCURRENT CACHE_TTL render now html options st
    hcnt hpos hne hlen

/-- Witness for C3_amended at the concrete oversized payload. -/
theorem C3_amended_witness :
    handleRequest 5 300000 (fun _ _ => Except.ok [9])
        (.htmlToImage 0 ⟨some bigHtml, none⟩) ⟨[], 0⟩
      = { response := ⟨413, none, none⟩,
          state := ⟨[], 0⟩,
          activeDuring := 1,
          rendered := false } :=
  C3_amended 5 300000 (fun _ _ => Except.ok [9]) 0 bigHtml none ⟨[], 0⟩
    (by decide) (by decide) bigHtml_ne_empty
    (by rw [bigHtml_length]; norm_num)

/-! ## Claim C4: the counter is restored and never negative -/

/-- The `try` block of the /html-to-image handler never changes the
counter: only the cache differs between its input and output states. -/
theorem htmlToImageTry_counter (CACHE_TTL : Nat)
    (render : String → JObj → Except String (List Nat)) (now : Nat)
    (body : RequestBody) (st : ServerState) :
    ((htmlToImageTry CACHE_TTL render now body st).2.1).activeRequests
      = st.activeRequests := by
  unfold htmlToImageTry
  cases body.html with
  | none => rfl
  | some html =>
    by_cases h1 : html = ""
    · simp [h1]
    · by_cases h2 : html.length > 10 * 1024 * 1024
      · simp [h1, h2]
      · simp only [if_neg h1, if_neg h2]
        cases (generateImageOptimized CACHE_TTL render now html
            (body.options.getD []) st.cache).result <;> simp

/-- One handled request leaves the counter exactly where it was,
whatever route it takes: 429, 400, 413, 200 or 500. -/
theorem handleRequest_counter (MAX_CONCURRENT CACHE_TTL : Nat)
    (render : String → JObj → Except String (List Nat))
    (req : Req) (st : ServerState) (h : 0 ≤ st.activeRequests) :
    (handleRequest MAX_CONCURRENT CACHE_TTL render req st).state.activeRequests
      = st.activeRequests := by
  obtain ⟨cache, ar⟩ := st
  simp only at h
  unfold handleRequest
  by_cases hthr : throttleRejects MAX_CONCURRENT ar req.path = true
  · simp [hthr]
  · simp only [Bool.not_eq_true] at hthr
    simp only [hthr, Bool.false_eq_true, if_false]
    cases req with
    | htmlToImage now body =>
      unfold handleHtmlToImage
      have hts := htmlToImageTry_counter CACHE_TTL render now body ⟨cache, ar + 1⟩
      rcases hEq : htmlToImageTry CACHE_TTL render now body ⟨cache, ar + 1⟩
        with ⟨resp, st2, rendered⟩
      rw [hEq] at hts
      simp only at hts
      simp only [hEq]
      omega
    | testImage now testHtml =>
      unfold handleTestImage
      rcases hg : (generateImageOptimized CACHE_TTL render now testHtml []
          cache).result with b | e <;> simp only [hg] <;> simp <;> omega

/-- Claim C4: starting from a non-negative counter, any sequence of
requests — each completing by success, validation rejection, throttle
rejection or thrown render error — returns the ActiveRequestCounter to
its initial value, and the counter is never negative: every increment
on request entry is paired with exactly one decrement on exit. -/
theorem C4_theorem (MAX_CONCURRENT CACHE_TTL : Nat)
    (render : String → JObj → Except String (List Nat))
    (reqs : List Req) (st : ServerState)
    (h : 0 ≤ st.activeRequests) :
    (runRequests MAX_CONCURRENT CACHE_TTL render reqs st).activeRequests
      = st.activeRequests ∧
    0 ≤ (runRequests MAX_CONCURRENT CACHE_TTL render reqs st).activeRequests := by
  induction reqs generalizing st with
  | nil => exact ⟨rfl, h⟩
  | cons r rest ih =>
    have h1 := handleRequest_counter MAX_CONCURRENT CACHE_TTL render r st h
    have h2 : 0 ≤ (handleRequest MAX_CONCURRENT CACHE_TTL render r st).state.activeRequests := by
      rw [h1]
      exact h
    have hstep : runRequests MAX_CONCURRENT CACHE_TTL render (r :: rest) st
        = runRequests MAX_CONCURRENT CACHE_TTL render rest
            (handleRequest MAX_CONCURRENT CACHE_TTL render r st).state := rfl
    obtain ⟨ha, hb⟩ := ih (handleRequest MAX_CONCURRENT CACHE_TTL render r st).state h2
    rw [hstep]
    exact ⟨ha.trans h1, hb⟩

/-- Witness for C4_theorem: a concrete sequence mixing a render error,
a missing-html rejection and a test-image request restores the counter
to 0. -/
theorem C4_theorem_witness :
    ((runRequests 5 100 (fun _ _ => Except.error "boom")
        [.htmlToImage 0 ⟨some "a", none⟩, .htmlToImage 1 ⟨none, none⟩,
         .testImage 2 "t"] ⟨[], 0⟩).activeRequests = 0) ∧
    (0 ≤ (runRequests 5 100 (fun _ _ => Except.error "boom")
        [.htmlToImage 0 ⟨some "a", none⟩, .htmlToImage 1 ⟨none, none⟩,
         .testImage 2 "t"] ⟨[], 0⟩).activeRequests) :=
  C4_theorem 5 100 (fun _ _ => Except.error "boom")
    [.htmlToImage 0 ⟨some "a", none⟩, .htmlToImage 1 ⟨none, none⟩,
     .testImage 2 "t"] ⟨[], 0⟩ (by decide)

/-! ## Claim C9: X-Cache-Status is always HIT on success -/

/-- The response of the /html-to-image route is the response of its
`try` block, run on the state with the entry-incremented counter. -/
theorem handleHtmlToImage_response (CACHE_TTL : Nat)
    (render : String → JObj → Except String (List Nat)) (now : Nat)
    (body : RequestBody) (st : ServerState) :
    (handleHtmlToImage CACHE_TTL render now body st).response
      = (htmlToImageTry CACHE_TTL render now body
          { st with activeRequests := st.activeRequests + 1 }).1 := by
  unfold handleHtmlToImage
  rcases hEq : htmlToImageTry CACHE_TTL render now body
      { st with activeRequests := st.activeRequests + 1 }
    with ⟨resp, st2, rendered⟩
  simp [hEq]

/-- In the `try` block, a 200 response always carries
`X-Cache-Status: HIT`: the header is computed by re-checking cache
membership after the render path has already stored the entry. -/
theorem htmlToImageTry_status_hit (CACHE_TTL : Nat)
    (render : String → JObj → Except String (List Nat)) (now : Nat)
    (body : RequestBody) (st : ServerState)
    (h : (htmlToImageTry CACHE_TTL render now body st).1.status = 200) :
    (htmlToImageTry CACHE_TTL render now body st).1.xCacheStatus
      = some "HIT" := by
  unfold htmlToImageTry at h ⊢
  rcases hb : body.html with _ | html
  · simp only [hb] at h
    simp at h
  · simp only [hb] at h ⊢
    by_cases h1 : html = ""
    · simp only [if_pos h1] at h
      simp at h
    · by_cases h2 : html.length > 10 * 1024 * 1024
      · simp only [if_neg h1, if_pos h2] at h
        simp at h
      · simp only [if_neg h1, if_neg h2] at h ⊢
        rcases hg : (generateImageOptimized CACHE_TTL render now html
            (body.options.getD []) st.cache).result with e | buf
        · rw [hg] at h
          simp at h
        · obtain ⟨ts, hts⟩ := gen_ok_cached CACHE_TTL render now html
            (body.options.getD []) st.cache buf hg
          simp only [hg]
          simp [mapHas, hts]

/-- Claim C9: every successful (status 200) POST /html-to-image
response carries the header `X-Cache-Status: HIT`, even when the image
was freshly rendered rather than served from cache: the header is
computed from `imageCache.has` after `generateImageOptimized` has
already stored the entry, so a successful render never reports MISS. -/
theorem C9_theorem (MAX_CONCURRENT CACHE_TTL : Nat)
    (render : String → JObj → Except String (List Nat)) (now : Nat)
    (body : RequestBody) (st : ServerState)
    (h : (handleRequest MAX_CONCURRENT CACHE_TTL render
        (.htmlToImage now body) st).response.status = 200) :
    (handleRequest MAX_CONCURRENT CACHE_TTL render
        (.htmlToImage now body) st).response.xCacheStatus = some "HIT" := by
  by_cases hthr : throttleRejects MAX_CONCURRENT st.activeRequests
      "/html-to-image" = true
  · have hr : handleRequest MAX_CONCURRENT CACHE_TTL render
        (.htmlToImage now body) st
        = { response := ⟨429, none, none⟩, state := st,
            activeDuring := st.activeRequests, rendered := false } := by
      unfold handleRequest
      simp only [Req.path]
      rw [if_pos hthr]
    rw [hr] at h
    simp at h
  · have hr : handleRequest MAX_CONCURRENT CACHE_TTL render
        (.htmlToImage now body) st
        = handleHtmlToImage CACHE_TTL render now body st := by
      unfold handleRequest
      simp only [Req.path]
      rw [if_neg hthr]
    rw [hr, handleHtmlToImage_response] at h ⊢
    exact htmlToImageTry_status_hit CACHE_TTL render now body _ h

/-- Witness for C9_theorem: a fresh render (empty starting cache)
still reports HIT. -/
theorem C9_theorem_witness :
    (handleRequest 5 100 (fun _ _ => Except.ok [3])
        (.htmlToImage 0 ⟨some "a", none⟩) ⟨[], 0⟩).response.xCacheStatus
      = some "HIT" :=
  C9_theorem 5 100 (fun _ _ => Except.ok [3]) 0 ⟨some "a", none⟩ ⟨[], 0⟩
    (by decide)

/-! ## Claim C10: scope of the admission gate -/

/-- Claim C10: the throttling middleware rejects with 429 exactly when
the path is /html-to-image and the counter is at or above the ceiling;
the path /test-image is never rejected by it, for any ceiling and any
counter value; yet a /test-image request increments the same counter on
entry (its activeDuring reading is the incremented counter); and
concretely, with ceiling 5 a counter pushed to 5 — by whatever mix of
in-flight requests, including /test-image ones — makes the middleware
reject /html-to-image requests while still admitting /test-image. -/
theorem C10_theorem :
    (∀ (MAX_CONCURRENT : Nat) (activeRequests : Int) (path : String),
      throttleRejects MAX_CONCURRENT activeRequests path = true ↔
        ((MAX_CONCURRENT : Int) ≤ activeRequests ∧ path = "/html-to-image")) ∧
    (∀ (MAX_CONCURRENT CACHE_TTL : Nat)
      (render : String → JObj → Except String (List Nat))
      (now : Nat) (testHtml : String) (st : ServerState),
      (handleRequest MAX_CONCURRENT CACHE_TTL render
          (.testImage now testHtml) st).activeDuring
        = st.activeRequests + 1) ∧
    (∀ (MAX_CONCURRENT : Nat) (activeRequests : Int),
      throttleRejects MAX_CONCURRENT activeRequests "/test-image" = false) ∧
    (throttleRejects 5 5 "/html-to-image" = true ∧
     throttleRejects 5 5 "/test-image" = false) := by
  have htest : ∀ (MAX_CONCURRENT : Nat) (activeRequests : Int),
      throttleRejects MAX_CONCURRENT activeRequests "/test-image" = false := by
    intro MAX_CONCURRENT activeRequests
    simp [throttleRejects]
  refine ⟨?_, ?_, htest, by decide, by decide⟩
  · intro MAX_CONCURRENT activeRequests path
    simp [throttleRejects, Bool.and_eq_true, decide_eq_true_eq, beq_iff_eq]
  · intro MAX_CONCURRENT CACHE_TTL render now testHtml st
    unfold handleRequest
    simp only [Req.path, htest, Bool.false_eq_true, if_false]
    unfold handleTestImage
    rcases hg : (generateImageOptimized CACHE_TTL render now testHtml []
        st.cache).result with b | e <;> simp [hg]

/-- Witness for C10_theorem at a concrete counter value. -/
theorem C10_theorem_witness :
    throttleRejects 7 9 "/test-image" = false :=
  C10_theorem.2.2.1 7 9

/-! ## Claim C6: browser launch retry and handle reuse -/

/-- Claim C6: when no handle exists and the first launch attempt fails,
`initBrowser` retries exactly once, with the minimal flag set and with
no executable path override; if the retry succeeds its handle is stored
and returned, and if the retry also fails the error propagates and no
handle is stored.  Once a handle exists, every call returns it without
launching at all. -/
theorem C6_theorem (launch : LaunchOptions → Except String Browser)
    (envExecPath : Option String) (e1 : String)
    (hfail : launch (mkLaunchOptions envExecPath) = .error e1) :
    ((retryLaunchOptions envExecPath).args = minimalLaunchArgs ∧
     (retryLaunchOptions envExecPath).executablePath = none) ∧
    (∀ e2, launch (retryLaunchOptions envExecPath) = .error e2 →
      initBrowser launch envExecPath none
        = (.error e2, none,
           [mkLaunchOptions envExecPath, retryLaunchOptions envExecPath])) ∧
    (∀ b2, launch (retryLaunchOptions envExecPath) = .ok b2 →
      initBrowser launch envExecPath none
        = (.ok b2, some b2,
           [mkLaunchOptions envExecPath, retryLaunchOptions envExecPath])) ∧
    (∀ b, initBrowser launch envExecPath (some b) = (.ok b, some b, [])) := by
  refine ⟨⟨rfl, rfl⟩, ?_, ?_, fun b => rfl⟩
  · intro e2 h2
    simp only [initBrowser, hfail, h2]
  · intro b2 h2
    simp only [initBrowser, hfail, h2]

/-- A launch oracle that fails both the full-flag attempt and the
minimal-flag retry, with distinguishable errors. -/
def C6launch : LaunchOptions → Except String Browser :=
  fun o => if o.args = minimalLaunchArgs
    then .error "retry failed" else .error "first failed"

/-- Witness for C6_theorem: with both attempts failing, the retry error
propagates, no handle is stored and exactly two launches were made. -/
theorem C6_theorem_witness :
    initBrowser C6launch none none
      = (.error "retry failed", none,
         [mkLaunchOptions none, retryLaunchOptions none]) :=
  (C6_theorem C6launch none "first failed" (by decide)).2.1
    "retry failed" (by decide)

/-! ## Claim C8: graceful shutdown sequence -/

/-- Claim C8: on a termination signal the shutdown path performs, in
order, the HTTP server close (stop accepting new requests), the cache
clear, the browser close when — and only when — a handle exists, and
then `process.exit(0)`; the trace always ends in exit code 0 and the
cache is always left empty, also when no handle was ever created (the
close step is skipped, not failed). -/
theorem C8_theorem :
    (∀ cache, gracefulShutdown none cache
        = ([.httpServerClose, .cacheClear, .exitProcess 0], [])) ∧
    (∀ (b : Browser) (cache : Cache), gracefulShutdown (some b) cache
        = ([.httpServerClose, .cacheClear, .browserClose, .exitProcess 0],
           [])) ∧
    (∀ (browser : Option Browser) (cache : Cache),
      ((gracefulShutdown browser cache).1.getLast?
          = some (.exitProcess 0)) ∧
      (gracefulShutdown browser cache).2 = []) := by
  refine ⟨fun _ => rfl, fun _ _ => rfl, fun browser cache => ?_⟩
  cases browser <;> exact ⟨rfl, rfl⟩

/-- Witness for C8_theorem with no browser handle. -/
theorem C8_theorem_witness :
    gracefulShutdown none []
      = ([.httpServerClose, .cacheClear, .exitProcess 0], []) :=
  C8_theorem.1 []

end HtmlToImage
